import Mathlib

/-!
Shallow embedding of `src/pricecheck.py` (investment price checker).

Modelling conventions:
* Python floats are modelled as exact rationals (`ℚ`); the claims under
  study concern which arithmetic is performed (identity vs. scaling by
  `0.01`), not floating-point rounding.
* Python exceptions are modelled by the `Except PyError` monad; an
  uncaught exception is an `Except.error` result, which aborts the rest
  of the run (in particular `df.to_csv` on line 126 never executes).
* The browser is modelled by an environment `Env` mapping each URL to the
  page content the two extractors can observe after `driver.get(url)`:
  for each of the three XPath lookups, `some text` when the element is
  found and `none` when the lookup raises `NoSuchElementException` or
  `TimeoutException`.
* Observable side effects (console prints, `driver.get` navigations and
  the `df.to_csv` output write) are recorded in an event trace so that
  "aborts before any navigation" and "the output file is never written"
  are statable.
* `float(value)` on a string is modelled by `parseDecimal`, Python float
  parsing restricted to plain signed decimal literals (the only shapes
  the scraped inputs take); parse failure is the `ValueError` that
  `float` raises.
* The CSV file is modelled as an already row-split `List (List String)`;
  `csv.reader` quoting details are not claim-relevant.
-/

/-- Python exceptions distinguished by raise site. In Python,
`floatConversionError` and `unpackError` are both `ValueError`; nothing in
the program catches `ValueError`, so keeping the sites distinct loses no
behaviour. -/
inductive PyError
  | valueError (msg : String)
  | floatConversionError (s : String)
  | notImplementedError (msg : String)
  | stopIteration
  | unpackError
deriving DecidableEq, Repr

/-- The observable events of a run: `print(f'Looking up {symbol}')`,
`driver.get(url)`, `print(f"Error getting price: {e}")`, and
`df.to_csv('prices.csv')` with the rows written. -/
inductive Event
  | lookingUp (symbol : String)
  | navigate (url : String)
  | errorGettingPrice
  | writeOutput (rows : List (String × Option ℚ))
deriving DecidableEq, Repr

/-- The argument of `GBPPrice.__new__` has Python type `float | str`. -/
inductive PyVal
  | num (q : ℚ)
  | str (s : String)
deriving DecidableEq, Repr

/-- Value of a list of decimal digit characters read base 10. -/
def digitsToNat (cs : List Char) : Nat :=
  cs.foldl (fun a c => 10 * a + (c.toNat - 48)) 0

/-- `cs` is nonempty and consists of decimal digits only. -/
def allDigits (cs : List Char) : Bool :=
  cs.all (fun c => c.isDigit)

/-- Unsigned decimal literal: digits with at most one point, at least one
digit overall (covers the forms `12`, `12.34`, `12.`, `.34`). -/
def parseUnsigned (cs : List Char) : Option ℚ :=
  let intPart := cs.takeWhile (fun c => c ≠ '.')
  match cs.dropWhile (fun c => c ≠ '.') with
  | [] =>
      if intPart ≠ [] ∧ allDigits intPart then
        some (digitsToNat intPart : ℚ)
      else none
  | c :: frac =>
      if c = '.' ∧ allDigits intPart ∧ allDigits frac ∧
          (intPart ≠ [] ∨ frac ≠ []) then
        some ((digitsToNat intPart : ℚ) +
          (digitsToNat frac : ℚ) / (10 ^ frac.length))
      else none

/-- Model of Python `float(s)` restricted to plain signed decimal
literals: optional sign, digits, optional single decimal point. -/
def parseDecimal (s : String) : Option ℚ :=
  match s.toList with
  | '-' :: rest => (parseUnsigned rest).map (fun q => -q)
  | '+' :: rest => parseUnsigned rest
  | cs => parseUnsigned cs

/-- `float(value)` on line 30: identity on floats, decimal parsing on
strings, `ValueError` when the string does not parse. -/
def pyFloat : PyVal → Except PyError ℚ
  | .num q => .ok q
  | .str s =>
      match parseDecimal s with
      | some q => .ok q
      | none => .error (.floatConversionError s)

namespace GBPPrice

/-- `GBPPrice.__new__` (lines 29-37): convert `value` with `float`, then
pass GBP through unchanged, scale GBX by `0.01`, and raise
`NotImplementedError` for any other currency tag. -/
def new (value : PyVal) (currency : String := "GBP") : Except PyError ℚ :=
  match pyFloat value with
  | .error e => .error e
  | .ok v =>
      if currency = "GBP" then .ok v
      else if currency = "GBX" then .ok (v * 0.01)
      else .error (.notImplementedError
        ("Currency " ++ currency ++ " not supported"))

end GBPPrice

/-- `read_holdings` (lines 57-66): the first row is the header, which must
be exactly `symbol,url`; all remaining rows are returned verbatim (no
per-row validation). An empty file makes `next(reader)` raise
`StopIteration`. -/
def read_holdings (file : List (List String)) :
    Except PyError (List (List String)) :=
  match file with
  | [] => .error .stopIteration
  | header :: rows =>
      if header = ["symbol", "url"] then .ok rows
      else .error (.valueError "Holdings file must only have columns symbol,url")

/-- What the extractors can observe on a loaded page: the text of each of
the three XPath targets, `none` when the lookup raises
`NoSuchElementException` or `TimeoutException`. -/
structure Page where
  /-- iweb: `//p[contains(@class, 'description__label') and
  contains(text(), 'Price')]/following-sibling::*` text. -/
  iwebElem : Option String
  /-- LSE: `//div[contains(@class, "currency-label")]` text. -/
  lseCurrencyLabel : Option String
  /-- LSE: `//span[@class="price-tag"]` text. -/
  lsePriceTag : Option String
deriving DecidableEq, Repr

/-- The browser environment: page contents by URL. -/
structure Env where
  pages : String → Page

/-- Python `s.replace(',', '')`: remove every comma. -/
def pyRemoveCommas (s : String) : String :=
  String.mk (s.toList.filter (fun c => c ≠ ','))

/-- Python `s[-5:]`: the last five characters (whole string when
shorter). -/
def pyTakeLast (s : String) (n : Nat) : String :=
  String.mk ((s.toList.reverse.take n).reverse)

/-- Python `s.strip('()')`: remove any run of `(` or `)` characters from
both ends. -/
def pyStripParens (s : String) : String :=
  let isParen := fun c => c = '(' || c = ')'
  String.mk (((s.toList.dropWhile isParen).reverse.dropWhile isParen).reverse)

/-- `get_price_from_iweb` (lines 69-82): on element-lookup failure print
the error and return `None`; otherwise build
`GBPPrice(element.text.replace(',', '')[:8], 'GBX')`. -/
def get_price_from_iweb (page : Page) :
    List Event × Except PyError (Option ℚ) :=
  match page.iwebElem with
  | none => ([.errorGettingPrice], .ok none)
  | some text =>
      ([], (GBPPrice.new (.str ((pyRemoveCommas text).take 8)) "GBX").map some)

/-- `get_price_from_lse` (lines 85-101): on failure of either element
lookup print the error and return `None`; otherwise take the currency
label's last five characters stripped of parentheses as the currency tag
and build `GBPPrice(element.text.replace(',', '')[:8], currency)`. -/
def get_price_from_lse (page : Page) :
    List Event × Except PyError (Option ℚ) :=
  match page.lseCurrencyLabel with
  | none => ([.errorGettingPrice], .ok none)
  | some ctext =>
      match page.lsePriceTag with
      | none => ([.errorGettingPrice], .ok none)
      | some ptext =>
          ([], (GBPPrice.new (.str ((pyRemoveCommas ptext).take 8))
            (pyStripParens (pyTakeLast ctext 5))).map some)

/-- The dispatch on `url[12:15]` (lines 116-121): `lon` selects the LSE
strategy, `mar` the iweb strategy, anything else raises
`NotImplementedError`. -/
def dispatch (env : Env) (url : String) :
    List Event × Except PyError (Option ℚ) :=
  if (url.drop 12).take 3 = "lon" then get_price_from_lse (env.pages url)
  else if (url.drop 12).take 3 = "mar" then get_price_from_iweb (env.pages url)
  else ([], .error (.notImplementedError "URL not supported"))

/-- The `for symbol, url in holdings` loop (lines 110-122): unpack the row
(raising `ValueError` for arity ≠ 2 before the body runs), print, navigate,
dispatch on the URL, and accumulate `(symbol, val)` pairs. Returns the
event trace and either the first uncaught exception or the accumulated
price list. -/
def mainLoop (env : Env) :
    List (List String) → List Event × Except PyError (List (String × Option ℚ))
  | [] => ([], .ok [])
  | (symbol :: url :: []) :: rest =>
      let evs := Event.lookingUp symbol :: Event.navigate url ::
        (dispatch env url).1
      match (dispatch env url).2 with
      | .error e => (evs, .error e)
      | .ok val =>
          (evs ++ (mainLoop env rest).1,
            (mainLoop env rest).2.map (fun ps => (symbol, val) :: ps))
  | _ :: _ => ([], .error .unpackError)

namespace pricecheck

/-- `main` (lines 104-127): read the holdings file, run the loop, then
write `prices.csv` (the `writeOutput` event). An uncaught exception at any
point skips the write. -/
def main (env : Env) (file : List (List String)) :
    List Event × Except PyError (List (String × Option ℚ)) :=
  match read_holdings file with
  | .error e => ([], .error e)
  | .ok holdings =>
      match (mainLoop env holdings).2 with
      | .error e => ((mainLoop env holdings).1, .error e)
      | .ok prices =>
          ((mainLoop env holdings).1 ++ [.writeOutput prices], .ok prices)

end pricecheck

/-- The extraction outcome expected for one holding, selected from its
URL: the LSE strategy for a `lon`-tagged URL, the iweb strategy for a
`mar`-tagged URL, a fatal error otherwise. -/
def specRow (env : Env) (p : String × String) : Except PyError (Option ℚ) :=
  if (p.2.drop 12).take 3 = "lon" then (get_price_from_lse (env.pages p.2)).2
  else if (p.2.drop 12).take 3 = "mar" then (get_price_from_iweb (env.pages p.2)).2
  else .error (.notImplementedError "URL not supported")

/-- The per-row output cell for a well-formed holding, with recoverable
failures recorded as an absent price. -/
def rowValue (env : Env) (p : String × String) : Option ℚ :=
  match specRow env p with
  | .ok v => v
  | .error _ => none

/-- A holding row as the two-field CSV row `symbol,url`. -/
def toRow (p : String × String) : List String :=
  [p.1, p.2]

/-- Extraction for this row raises no uncaught exception (the holding
either succeeds or fails only the recoverable tier). -/
def rowOk (env : Env) (p : String × String) : Bool :=
  match specRow env p with
  | .ok _ => true
  | .error _ => false

lemma specRow_eq_dispatch (env : Env) (p : String × String) :
    specRow env p = (dispatch env p.2).2 := by
  unfold specRow dispatch
  split
  · rfl
  · split <;> rfl

/-- For a single well-formed row, the loop produces the row's events and
maps the dispatch outcome onto a one-row table. -/
lemma mainLoop_single (env : Env) (sym url : String) :
    mainLoop env [[sym, url]] =
      (Event.lookingUp sym :: Event.navigate url :: (dispatch env url).1,
       (dispatch env url).2.map (fun v => [(sym, v)])) := by
  cases h : (dispatch env url).2 <;> simp [mainLoop, h, Except.map]

/-- C1: constructing a normalized price from a float with currency tag
`GBP` yields the value unchanged, and with tag `GBX` yields the value
multiplied by `0.01` (`GBPPrice.__new__`, lines 29-37). -/
theorem gbpprice_new_gbp_identity_gbx_scales (v : ℚ) :
    GBPPrice.new (.num v) "GBP" = .ok v ∧
    GBPPrice.new (.num v) "GBX" = .ok (v * 0.01) := by
  constructor <;> simp [GBPPrice.new, pyFloat]

/-- C2: every currency tag other than `GBP` and `GBX` makes
`GBPPrice.__new__` raise `NotImplementedError` on any float input, and no
such tag ever yields a value for any input. -/
theorem gbpprice_new_rejects_unknown_currency (c : String)
    (h1 : c ≠ "GBP") (h2 : c ≠ "GBX") :
    (∀ v : ℚ, GBPPrice.new (.num v) c =
      .error (.notImplementedError ("Currency " ++ c ++ " not supported"))) ∧
    (∀ (v : PyVal) (q : ℚ), GBPPrice.new v c ≠ .ok q) := by
  constructor
  · intro v
    simp [GBPPrice.new, pyFloat, h1, h2]
  · intro v q
    cases v with
    | num x => simp [GBPPrice.new, pyFloat, h1, h2]
    | str s =>
        cases hp : parseDecimal s <;>
          simp [GBPPrice.new, pyFloat, hp, h1, h2]

/-- C2 witness: the tag `USD` with value `5` concretely raises the
unimplemented-currency error. -/
theorem gbpprice_new_rejects_unknown_currency_witness :
    GBPPrice.new (.num 5) "USD" =
      .error (.notImplementedError "Currency USD not supported") :=
  (gbpprice_new_rejects_unknown_currency "USD" (by decide) (by decide)).1 5

/-- C3: in the per-holding loop the strategy is selected by the URL
characters at positions 12-15: `lon` runs the LSE extractor, `mar` runs
the iweb extractor, and any other value raises `NotImplementedError`,
aborting the loop with no fallback (lines 115-121). -/
theorem url_dispatch_selects_strategy (env : Env) (sym url : String) :
    ((url.drop 12).take 3 = "lon" →
      mainLoop env [[sym, url]] =
        (Event.lookingUp sym :: Event.navigate url ::
          (get_price_from_lse (env.pages url)).1,
         (get_price_from_lse (env.pages url)).2.map (fun v => [(sym, v)]))) ∧
    ((url.drop 12).take 3 = "mar" →
      mainLoop env [[sym, url]] =
        (Event.lookingUp sym :: Event.navigate url ::
          (get_price_from_iweb (env.pages url)).1,
         (get_price_from_iweb (env.pages url)).2.map (fun v => [(sym, v)]))) ∧
    ((url.drop 12).take 3 ≠ "lon" → (url.drop 12).take 3 ≠ "mar" →
      mainLoop env [[sym, url]] =
        ([Event.lookingUp sym, Event.navigate url],
         .error (.notImplementedError "URL not supported"))) := by
  refine ⟨fun hlon => ?_, fun hmar => ?_, fun hlon hmar => ?_⟩
  · rw [mainLoop_single]
    unfold dispatch
    simp [hlon]
  · rw [mainLoop_single]
    unfold dispatch
    simp [hmar]
  · rw [mainLoop_single]
    unfold dispatch
    simp [hlon, hmar, Except.map]

/-- C3 witness: a URL whose characters 12-15 are `xyz` concretely aborts
the loop with the unimplemented-URL error. -/
theorem url_dispatch_selects_strategy_witness :
    mainLoop ⟨fun _ => ⟨none, none, none⟩⟩ [["X", "https://www.xyzsite.com"]] =
      ([Event.lookingUp "X", Event.navigate "https://www.xyzsite.com"],
       .error (.notImplementedError "URL not supported")) :=
  (url_dispatch_selects_strategy ⟨fun _ => ⟨none, none, none⟩⟩ "X"
    "https://www.xyzsite.com").2.2 (by decide) (by decide)

/-- C4: a holdings file whose header row is not exactly `symbol,url` makes
the run abort with the header `ValueError`, with an empty event trace: in
particular no `driver.get` navigation and no output write ever occur. -/
theorem bad_header_aborts_before_navigation (env : Env)
    (header : List String) (rows : List (List String))
    (h : header ≠ ["symbol", "url"]) :
    pricecheck.main env (header :: rows) =
      ([], .error (.valueError "Holdings file must only have columns symbol,url")) := by
  simp [pricecheck.main, read_holdings, h]

/-- C4 witness: the header `sym,link` concretely aborts the run with an
empty trace even though a navigable holding row follows. -/
theorem bad_header_aborts_before_navigation_witness :
    pricecheck.main ⟨fun _ => ⟨none, none, none⟩⟩
      [["sym", "link"], ["AAA", "https://www.londonstockexchange.com"]] =
      ([], .error (.valueError "Holdings file must only have columns symbol,url")) :=
  bad_header_aborts_before_navigation ⟨fun _ => ⟨none, none, none⟩⟩
    ["sym", "link"] [["AAA", "https://www.londonstockexchange.com"]] (by decide)

/-- C5: when the expected element is missing (or its lookup times out),
each extractor prints the error and returns an absent price rather than
zero or an exception, and the per-holding loop records an empty cell for
that holding and continues with the remaining holdings. -/
theorem missing_element_yields_absent_and_continues (env : Env) (page : Page)
    (sym url : String) (rest : List (List String)) :
    (page.iwebElem = none →
      get_price_from_iweb page = ([.errorGettingPrice], .ok none)) ∧
    (page.lseCurrencyLabel = none ∨ page.lsePriceTag = none →
      get_price_from_lse page = ([.errorGettingPrice], .ok none)) ∧
    ((url.drop 12).take 3 = "mar" → (env.pages url).iwebElem = none →
      mainLoop env ([sym, url] :: rest) =
        (Event.lookingUp sym :: Event.navigate url :: Event.errorGettingPrice ::
          (mainLoop env rest).1,
         (mainLoop env rest).2.map (fun ps => (sym, none) :: ps))) := by
  refine ⟨fun h1 => ?_, fun h2 => ?_, fun hmar helem => ?_⟩
  · simp [get_price_from_iweb, h1]
  · rcases h2 with h2 | h2
    · simp [get_price_from_lse, h2]
    · cases hc : page.lseCurrencyLabel <;> simp [get_price_from_lse, hc, h2]
  · have hd : dispatch env url = ([.errorGettingPrice], .ok none) := by
      unfold dispatch
      simp [hmar, get_price_from_iweb, helem]
    simp [mainLoop, hd]

/-- C5 witness: a page with every element missing makes both extractors
report and return an absent price, and a one-holding run still completes
with an empty cell for that holding. -/
theorem missing_element_yields_absent_and_continues_witness :
    get_price_from_iweb ⟨none, none, none⟩ = ([.errorGettingPrice], .ok none) ∧
    get_price_from_lse ⟨none, none, none⟩ = ([.errorGettingPrice], .ok none) ∧
    mainLoop ⟨fun _ => ⟨none, none, none⟩⟩ [["AAA", "https://www.marketsiweb.com"]] =
      ([Event.lookingUp "AAA", Event.navigate "https://www.marketsiweb.com",
        Event.errorGettingPrice], .ok [("AAA", none)]) :=
  have h := missing_element_yields_absent_and_continues ⟨fun _ => ⟨none, none, none⟩⟩
    ⟨none, none, none⟩ "AAA" "https://www.marketsiweb.com" []
  ⟨h.1 rfl, h.2.1 (Or.inl rfl), h.2.2 (by decide) rfl⟩
lemma writeOutput_not_mem_iweb (page : Page) (rows : List (String × Option ℚ)) :
    Event.writeOutput rows ∉ (get_price_from_iweb page).1 := by
  cases h : page.iwebElem <;> simp [get_price_from_iweb, h]

lemma writeOutput_not_mem_lse (page : Page) (rows : List (String × Option ℚ)) :
    Event.writeOutput rows ∉ (get_price_from_lse page).1 := by
  cases hc : page.lseCurrencyLabel
  · simp [get_price_from_lse, hc]
  · cases hp : page.lsePriceTag <;> simp [get_price_from_lse, hc, hp]

lemma writeOutput_not_mem_dispatch (env : Env) (url : String)
    (rows : List (String × Option ℚ)) :
    Event.writeOutput rows ∉ (dispatch env url).1 := by
  by_cases h1 : (url.drop 12).take 3 = "lon"
  · simpa [dispatch, h1] using writeOutput_not_mem_lse (env.pages url) rows
  · by_cases h2 : (url.drop 12).take 3 = "mar"
    · simpa [dispatch, h1, h2] using writeOutput_not_mem_iweb (env.pages url) rows
    · simp [dispatch, h1, h2]

lemma writeOutput_not_mem_mainLoop (env : Env) :
    ∀ (l : List (List String)) (rows : List (String × Option ℚ)),
      Event.writeOutput rows ∉ (mainLoop env l).1
  | [], rows => by simp [mainLoop]
  | (sym :: url :: []) :: rest, rows => by
      have ih := writeOutput_not_mem_mainLoop env rest rows
      have hd := writeOutput_not_mem_dispatch env url rows
      cases h : (dispatch env url).2 <;>
        simp_all [mainLoop, h, List.mem_append]
  | [] :: rest, rows => by simp [mainLoop]
  | (sym :: []) :: rest, rows => by simp [mainLoop]
  | (sym :: url :: c :: cs) :: rest, rows => by simp [mainLoop]

lemma writeOutput_mem_main_iff (env : Env) (file : List (List String))
    (rows : List (String × Option ℚ)) :
    Event.writeOutput rows ∈ (pricecheck.main env file).1 ↔
      (pricecheck.main env file).2 = .ok rows := by
  unfold pricecheck.main
  cases hr : read_holdings file with
  | error e => simp
  | ok holdings =>
      cases hm : (mainLoop env holdings).2 with
      | error e =>
          simp [hm, writeOutput_not_mem_mainLoop env holdings rows]
      | ok prices =>
          have hh := writeOutput_not_mem_mainLoop env holdings rows
          simp [hm, List.mem_append, hh, eq_comm]

lemma rowOk_dispatch (env : Env) (p : String × String) (h : rowOk env p = true) :
    (dispatch env p.2).2 = .ok (rowValue env p) := by
  rw [← specRow_eq_dispatch]
  unfold rowOk at h
  unfold rowValue
  cases hs : specRow env p with
  | ok v => simp
  | error e => rw [hs] at h; simp at h

/-- C7: for a holdings file of n well-formed rows in which no holding hits
a fatal error, the run produces exactly n output rows, one
`(symbol, price-or-absent)` pair per input row in input order, each
computed by the strategy its URL selects, and writes exactly that table. -/
theorem run_preserves_rows_order_and_strategy (env : Env)
    (hold : List (String × String))
    (h : ∀ p ∈ hold, rowOk env p = true) :
    (mainLoop env (hold.map toRow)).2 =
      .ok (hold.map (fun p => (p.1, rowValue env p))) ∧
    pricecheck.main env (["symbol", "url"] :: hold.map toRow) =
      ((mainLoop env (hold.map toRow)).1 ++
        [Event.writeOutput (hold.map (fun p => (p.1, rowValue env p)))],
       .ok (hold.map (fun p => (p.1, rowValue env p)))) ∧
    (hold.map (fun p => (p.1, rowValue env p))).length = hold.length := by
  have hloop : (mainLoop env (hold.map toRow)).2 =
      .ok (hold.map (fun p => (p.1, rowValue env p))) := by
    induction hold with
    | nil => simp [mainLoop]
    | cons p t ih =>
        have hp := rowOk_dispatch env p (h p (List.mem_cons_self p t))
        have ht := ih (fun q hq => h q (List.mem_cons_of_mem p hq))
        simp only [List.map_cons, toRow]
        simp [mainLoop, hp, ht, Except.map]
  refine ⟨hloop, ?_, by simp⟩
  simp [pricecheck.main, read_holdings, hloop]


theorem run_preserves_rows_order_and_strategy_witness :
    (mainLoop ⟨fun _ => ⟨some "101.5", some "(GBX)", some "240.5"⟩⟩
      [["AAA", "https://www.londonstockexchange.com/stock"],
       ["BBB", "https://www.markets.iweb.co.uk/q"]]).2 =
      .ok [("AAA", some ((240.5 : ℚ) * 0.01)), ("BBB", some ((101.5 : ℚ) * 0.01))] := by
  have h := (run_preserves_rows_order_and_strategy
    ⟨fun _ => ⟨some "101.5", some "(GBX)", some "240.5"⟩⟩
    [("AAA", "https://www.londonstockexchange.com/stock"),
     ("BBB", "https://www.markets.iweb.co.uk/q")] (by decide)).1
  refine Eq.trans h ?_
  rw [show List.map
      (fun p => (p.1, rowValue
        ⟨fun _ => ⟨some "101.5", some "(GBX)", some "240.5"⟩⟩ p))
      [("AAA", "https://www.londonstockexchange.com/stock"),
       ("BBB", "https://www.markets.iweb.co.uk/q")] =
    [("AAA", some (((digitsToNat ['2','4','0'] : ℚ) +
        (digitsToNat ['5'] : ℚ) / 10 ^ 1) * 0.01)),
     ("BBB", some (((digitsToNat ['1','0','1'] : ℚ) +
        (digitsToNat ['5'] : ℚ) / 10 ^ 1) * 0.01))] from rfl]
  rw [(by decide : digitsToNat ['2','4','0'] = 240),
      (by decide : digitsToNat ['1','0','1'] = 101),
      (by decide : digitsToNat ['5'] = 5)]
  norm_num

/-- C8: the iweb strategy strips commas from the scraped text, truncates
to 8 characters, parses it as a decimal and fixes the currency tag to
`GBX`, so a found element always yields the parsed value times `0.01`. -/
theorem iweb_always_scales_by_gbx (page : Page) (text : String) (q : ℚ)
    (helem : page.iwebElem = some text)
    (hparse : parseDecimal ((pyRemoveCommas text).take 8) = some q) :
    get_price_from_iweb page = ([], .ok (some (q * 0.01))) := by
  simp [get_price_from_iweb, helem, GBPPrice.new, pyFloat, hparse, Except.map]

theorem iweb_always_scales_by_gbx_witness :
    parseDecimal ((pyRemoveCommas "1,234.5678").take 8) = some (1234.567 : ℚ) ∧
    get_price_from_iweb ⟨some "1,234.5678", none, none⟩ =
      ([], .ok (some ((1234.567 : ℚ) * 0.01))) := by
  have hp : parseDecimal ((pyRemoveCommas "1,234.5678").take 8) =
      some (1234.567 : ℚ) := by
    rw [show parseDecimal ((pyRemoveCommas "1,234.5678").take 8) =
      some ((digitsToNat ['1','2','3','4'] : ℚ) +
        (digitsToNat ['5','6','7'] : ℚ) / 10 ^ 3) from rfl]
    rw [(by decide : digitsToNat ['1','2','3','4'] = 1234),
        (by decide : digitsToNat ['5','6','7'] = 567)]
    norm_num
  exact ⟨hp, iweb_always_scales_by_gbx ⟨some "1,234.5678", none, none⟩
    "1,234.5678" (1234.567 : ℚ) rfl hp⟩

/-- C9: when the scraped element is present but its comma-stripped first
8 characters do not parse as a decimal, neither extractor handles the
failure: the `ValueError` from `float` propagates as a fatal error instead
of being recorded as an absent price (and nothing is printed). -/
theorem parse_failure_propagates_fatal (page page2 : Page)
    (text ctext ptext : String)
    (h1 : page.iwebElem = some text)
    (hp1 : parseDecimal ((pyRemoveCommas text).take 8) = none)
    (h2 : page2.lseCurrencyLabel = some ctext)
    (h3 : page2.lsePriceTag = some ptext)
    (hp2 : parseDecimal ((pyRemoveCommas ptext).take 8) = none) :
    get_price_from_iweb page =
      ([], .error (.floatConversionError ((pyRemoveCommas text).take 8))) ∧
    get_price_from_lse page2 =
      ([], .error (.floatConversionError ((pyRemoveCommas ptext).take 8))) := by
  constructor
  · simp [get_price_from_iweb, h1, GBPPrice.new, pyFloat, hp1, Except.map]
  · simp [get_price_from_lse, h2, h3, GBPPrice.new, pyFloat, hp2, Except.map]

theorem parse_failure_propagates_fatal_witness :
    get_price_from_iweb ⟨some "N/A", none, none⟩ =
      ([], .error (.floatConversionError "N/A")) ∧
    get_price_from_lse ⟨none, some "(GBX)", some "N/A"⟩ =
      ([], .error (.floatConversionError "N/A")) :=
  parse_failure_propagates_fatal ⟨some "N/A", none, none⟩
    ⟨none, some "(GBX)", some "N/A"⟩ "N/A" "(GBX)" "N/A"
    rfl (by decide) rfl rfl (by decide)

lemma mainLoop_badRow (env : Env) (bad : List String)
    (rest : List (List String)) (hbad : bad.length ≠ 2) :
    mainLoop env (bad :: rest) = ([], .error .unpackError) := by
  match bad with
  | [] => simp [mainLoop]
  | [x] => simp [mainLoop]
  | [x, y] => exact absurd rfl hbad
  | x :: y :: z :: t => simp [mainLoop]

lemma mainLoop_append_error (env : Env) (pre : List (String × String))
    (hpre : ∀ p ∈ pre, rowOk env p = true) (tail : List (List String))
    (e : PyError) (htail : (mainLoop env tail).2 = .error e) :
    (mainLoop env (pre.map toRow ++ tail)).2 = .error e := by
  induction pre with
  | nil => simpa using htail
  | cons p t ih =>
      have hp := rowOk_dispatch env p (hpre p (List.mem_cons_self p t))
      have ht := ih (fun q hq => hpre q (List.mem_cons_of_mem p hq))
      simp only [List.map_cons, List.cons_append, toRow]
      simp [mainLoop, hp, ht, Except.map]

/-- C10: `read_holdings` does no per-row arity validation: a data row
with a field count other than two is returned verbatim, and once the loop
reaches it `main` raises the tuple-unpacking `ValueError`, a fatal error,
before the output file is written. -/
theorem missing_arity_check_causes_unpack_error (env : Env)
    (pre : List (String × String)) (bad : List String)
    (rest : List (List String)) (hbad : bad.length ≠ 2)
    (hpre : ∀ p ∈ pre, rowOk env p = true) :
    read_holdings (["symbol", "url"] :: (pre.map toRow ++ bad :: rest)) =
      .ok (pre.map toRow ++ bad :: rest) ∧
    (pricecheck.main env
      (["symbol", "url"] :: (pre.map toRow ++ bad :: rest))).2 =
      .error .unpackError ∧
    ∀ out, Event.writeOutput out ∉
      (pricecheck.main env
        (["symbol", "url"] :: (pre.map toRow ++ bad :: rest))).1 := by
  have hb := mainLoop_badRow env bad rest hbad
  have hm : (mainLoop env (pre.map toRow ++ bad :: rest)).2 =
      .error .unpackError :=
    mainLoop_append_error env pre hpre (bad :: rest) .unpackError (by rw [hb])
  have hmain : (pricecheck.main env
      (["symbol", "url"] :: (pre.map toRow ++ bad :: rest))).2 =
      .error .unpackError := by
    simp [pricecheck.main, read_holdings, hm]
  refine ⟨by simp [read_holdings], hmain, fun out => ?_⟩
  rw [writeOutput_mem_main_iff, hmain]
  simp

theorem missing_arity_check_causes_unpack_error_witness :
    read_holdings [["symbol", "url"], ["a", "b", "c"]] = .ok [["a", "b", "c"]] ∧
    (pricecheck.main ⟨fun _ => ⟨none, none, none⟩⟩
      [["symbol", "url"], ["a", "b", "c"]]).2 = .error .unpackError ∧
    Event.writeOutput [] ∉
      (pricecheck.main ⟨fun _ => ⟨none, none, none⟩⟩
        [["symbol", "url"], ["a", "b", "c"]]).1 :=
  have h := missing_arity_check_causes_unpack_error ⟨fun _ => ⟨none, none, none⟩⟩
    [] ["a", "b", "c"] [] (by decide) (by simp)
  ⟨h.1, h.2.1, h.2.2 []⟩

/-- C6: the output file is written exactly when the run raises no fatal
error: a `writeOutput` event (with some row list) occurs in the trace iff
the run completed with that list, i.e. every holding either succeeded or
failed only the recoverable element-lookup tier; any fatal error at any
point means no output is ever written. -/
theorem output_written_iff_no_fatal_error (env : Env)
    (file : List (List String)) (rows : List (String × Option ℚ)) :
    Event.writeOutput rows ∈ (pricecheck.main env file).1 ↔
      (pricecheck.main env file).2 = .ok rows :=
  writeOutput_mem_main_iff env file rows

